import Mathlib

/-!
Verification of `src/factorial.py` from the `peanut-butter` repository.

The source defines two pure functions:
* `get_numbers_up_to(n)` (the Range Generator): validates that `n` is an
  `int` and `n >= 1`, then returns `list(range(1, n + 1))`;
* `factorial(n)` (the Factorial Calculator): validates that `n` is an
  `int` and `n >= 0`, returns `1` for `n == 0 or n == 1`, and otherwise
  folds the Range Generator's output with multiplication seeded at `1`.

Python values are embedded as an inductive type covering the value kinds
the program distinguishes (ints, bools — which are instances of `int` in
Python — floats and strings); raised exceptions are embedded as the
`error` branch of `Except`.
-/

namespace PeanutButter

/-- The kinds of Python runtime values relevant to this program:
integers, booleans (instances of `int` in Python), floats and strings. -/
inductive PyVal where
  | int (n : Int)
  | bool (b : Bool)
  | float (x : Rat)
  | str (s : String)
deriving DecidableEq

/-- The Python exceptions raised by the program: `TypeError` (the spec's
type-mismatch error) and `ValueError` (the spec's value-range error),
each carrying its message. -/
inductive PyErr where
  | typeError (msg : String)
  | valueError (msg : String)
deriving DecidableEq

/-- `isinstance(v, int)`: true exactly for ints and bools, since `bool`
is a subclass of `int` in Python. -/
def isinstance_int : PyVal → Bool
  | .int _ => true
  | .bool _ => true
  | .float _ => false
  | .str _ => false

/-- The integer value carried by an int-like Python value; `True` and
`False` compare and compute as `1` and `0`.  The remaining cases are
never reached after an `isinstance(v, int)` check succeeds. -/
def intVal : PyVal → Int
  | .int n => n
  | .bool b => if b then 1 else 0
  | .float _ => 0
  | .str _ => 0

/-- `list(range(a, b))`: the integers from `a` up to but excluding `b`. -/
def pyRange (a b : Int) : List Int :=
  (List.range (b - a).toNat).map (fun i : Nat => a + (i : Int))

/-- Embedding of `get_numbers_up_to` (src/factorial.py lines 1-19):
raise `TypeError` unless the input is an `int`, raise `ValueError`
unless it is at least `1`, and otherwise return `list(range(1, n + 1))`. -/
def get_numbers_up_to (v : PyVal) : Except PyErr (List Int) :=
  if ¬ isinstance_int v then .error (.typeError "Input must be an integer")
  else if intVal v < 1 then .error (.valueError "Input must be a positive integer")
  else .ok (pyRange 1 (intVal v + 1))

/-- Embedding of `factorial` (src/factorial.py lines 21-45): raise
`TypeError` unless the input is an `int`, raise `ValueError` if it is
negative, return `1` when it equals `0` or `1`, and otherwise fold the
list produced by `get_numbers_up_to` with multiplication seeded at `1`. -/
def factorial (v : PyVal) : Except PyErr Int :=
  if ¬ isinstance_int v then .error (.typeError "Input must be an integer")
  else if intVal v < 0 then .error (.valueError "Factorial is not defined for negative numbers")
  else if intVal v = 0 ∨ intVal v = 1 then .ok 1
  else
    match get_numbers_up_to v with
    | .error e => .error e
    | .ok numbers => .ok (numbers.foldl (fun result num => result * num) 1)

/-- `factorial` instrumented to also record the list of arguments it
passes to the Range Generator `get_numbers_up_to`; the computation is
identical to `factorial`, only the trace is added. -/
def factorialTr (v : PyVal) : Except PyErr Int × List PyVal :=
  if ¬ isinstance_int v then (.error (.typeError "Input must be an integer"), [])
  else if intVal v < 0 then (.error (.valueError "Factorial is not defined for negative numbers"), [])
  else if intVal v = 0 ∨ intVal v = 1 then (.ok 1, [])
  else
    match get_numbers_up_to v with
    | .error e => (.error e, [v])
    | .ok numbers => (.ok (numbers.foldl (fun result num => result * num) 1), [v])

/-- `get_numbers_up_to` with an ambient state of an arbitrary type
threaded through every step of the translation; the source touches no
state outside its call frame, so every step passes the state along. -/
def rangeSt {σ : Type} (s : σ) (v : PyVal) : Except PyErr (List Int) × σ :=
  if ¬ isinstance_int v then (.error (.typeError "Input must be an integer"), s)
  else if intVal v < 1 then (.error (.valueError "Input must be a positive integer"), s)
  else (.ok (pyRange 1 (intVal v + 1)), s)

/-- `factorial` with an ambient state of an arbitrary type threaded
through every step of the translation, including the call to the
state-threaded Range Generator. -/
def factorialSt {σ : Type} (s : σ) (v : PyVal) : Except PyErr Int × σ :=
  if ¬ isinstance_int v then (.error (.typeError "Input must be an integer"), s)
  else if intVal v < 0 then (.error (.valueError "Factorial is not defined for negative numbers"), s)
  else if intVal v = 0 ∨ intVal v = 1 then (.ok 1, s)
  else
    match rangeSt s v with
    | (.error e, s1) => (.error e, s1)
    | (.ok numbers, s1) => (.ok (numbers.foldl (fun result num => result * num) 1), s1)

/-! ### Basic computation lemmas -/

lemma pyRange_one_succ (n : Nat) :
    pyRange 1 ((n : Int) + 1) = (List.range n).map (fun i : Nat => ((1 : Int) + i)) := by
  simp [pyRange]

lemma foldl_mul_map_range (n : Nat) :
    (((List.range n).map (fun i : Nat => ((1 : Int) + i))).foldl
        (fun result num => result * num) 1)
      = (Nat.factorial n : Int) := by
  induction n with
  | zero => simp [Nat.factorial]
  | succ k ih =>
      rw [List.range_succ, List.map_append, List.foldl_append, ih]
      simp only [List.map_cons, List.map_nil, List.foldl_cons, List.foldl_nil,
        Nat.factorial_succ]
      push_cast
      ring

lemma get_numbers_up_to_int_pos (n : Nat) (h : 1 ≤ n) :
    get_numbers_up_to (.int (n : Int))
      = .ok ((List.range n).map (fun i : Nat => ((1 : Int) + i))) := by
  have h1 : ¬ ((n : Int) < 1) := by exact_mod_cast Nat.not_lt.mpr h
  unfold get_numbers_up_to
  rw [if_neg (by simp [isinstance_int])]
  rw [show intVal (.int (n : Int)) = (n : Int) from rfl]
  rw [if_neg h1, pyRange_one_succ]

lemma factorial_int_eq (n : Nat) :
    factorial (.int (n : Int)) = .ok (Nat.factorial n : Int) := by
  match n with
  | 0 => rfl
  | 1 => rfl
  | k + 2 =>
      have hnn : ¬ (((k + 2 : Nat) : Int) < 0) := by push_cast; omega
      have hz : ¬ (((k + 2 : Nat) : Int) = 0 ∨ ((k + 2 : Nat) : Int) = 1) := by
        push_cast; omega
      unfold factorial
      rw [if_neg (by simp [isinstance_int])]
      rw [show intVal (.int ((k + 2 : Nat) : Int)) = ((k + 2 : Nat) : Int) from rfl]
      rw [if_neg hnn, if_neg hz, get_numbers_up_to_int_pos (k + 2) (by omega)]
      exact congrArg Except.ok (foldl_mul_map_range (k + 2))

lemma get_numbers_up_to_int_ok (n : Int) (h : 1 ≤ n) :
    get_numbers_up_to (.int n) = .ok (pyRange 1 (n + 1)) := by
  unfold get_numbers_up_to
  rw [if_neg (by simp [isinstance_int])]
  rw [show intVal (.int n) = n from rfl]
  exact if_neg (by omega)

lemma get_numbers_up_to_int_err (n : Int) (h : n < 1) :
    get_numbers_up_to (.int n) = .error (.valueError "Input must be a positive integer") := by
  unfold get_numbers_up_to
  rw [if_neg (by simp [isinstance_int])]
  rw [show intVal (.int n) = n from rfl]
  exact if_pos h

lemma factorial_int_ok (n : Int) (h : 0 ≤ n) :
    factorial (.int n) = .ok (Nat.factorial n.toNat : Int) := by
  have h2 := factorial_int_eq n.toNat
  rwa [Int.toNat_of_nonneg h] at h2

lemma factorial_int_err (n : Int) (h : n < 0) :
    factorial (.int n) = .error (.valueError "Factorial is not defined for negative numbers") := by
  unfold factorial
  rw [if_neg (by simp [isinstance_int])]
  rw [show intVal (.int n) = n from rfl]
  exact if_pos h

lemma factorialTr_int (n : Int) (h : 2 ≤ n) :
    factorialTr (.int n)
      = (.ok ((pyRange 1 (n + 1)).foldl (fun result num => result * num) 1), [.int n]) := by
  unfold factorialTr
  rw [if_neg (by simp [isinstance_int])]
  rw [show intVal (.int n) = n from rfl]
  rw [if_neg (by omega), if_neg (by omega), get_numbers_up_to_int_ok n (by omega)]

lemma factorialTr_fst (v : PyVal) : (factorialTr v).1 = factorial v := by
  unfold factorialTr factorial
  split_ifs <;> try rfl
  cases hg : get_numbers_up_to v <;> rfl

lemma rangeSt_eq {σ : Type} (s : σ) (v : PyVal) : rangeSt s v = (get_numbers_up_to v, s) := by
  unfold rangeSt get_numbers_up_to
  split_ifs <;> rfl

lemma factorialSt_eq {σ : Type} (s : σ) (v : PyVal) : factorialSt s v = (factorial v, s) := by
  unfold factorialSt factorial
  rw [rangeSt_eq]
  split_ifs <;> try rfl
  cases hg : get_numbers_up_to v <;> rfl

/-! ### Claim theorems -/

/-- C1: for every integer `n ≥ 0`, `factorial` applied to `n` returns an
exact integer equal to the product of all integers from 1 to `n`, with
`factorial(0) = factorial(1) = 1`; in particular `factorial(5) = 120`
and `factorial(10) = 3628800`. -/
theorem C1_factorial_correct (n : Int) (h : 0 ≤ n) :
    factorial (.int n) = .ok (∏ i ∈ Finset.Icc 1 n.toNat, (i : Int)) ∧
    factorial (.int 0) = .ok 1 ∧ factorial (.int 1) = .ok 1 ∧
    factorial (.int 5) = .ok 120 ∧ factorial (.int 10) = .ok 3628800 := by
  refine ⟨?_, rfl, rfl, by rfl, by rfl⟩
  have hprod : (∏ i ∈ Finset.Icc 1 n.toNat, (i : Int)) = (Nat.factorial n.toNat : Int) := by
    rw [show (∏ i ∈ Finset.Icc 1 n.toNat, (i : Int))
          = ((∏ i ∈ Finset.Icc 1 n.toNat, i : Nat) : Int) from (Nat.cast_prod _ _).symm]
    congr 1
    rw [← Nat.Ico_succ_right, Finset.prod_Ico_id_eq_factorial]
  rw [hprod]
  exact factorial_int_ok n h

theorem C1_witness : (0 : Int) ≤ 5 ∧ factorial (.int 5) = .ok 120 :=
  ⟨by norm_num, (C1_factorial_correct 5 (by norm_num)).2.2.2.1⟩

/-- C2: for every integer `n ≥ 1`, `get_numbers_up_to` applied to `n`
returns an ordered finite sequence of exactly `n` elements whose element
at index `i` is `i + 1` for every `0 ≤ i < n`, i.e. `[1, 2, ..., n]`. -/
theorem C2_range_correct (n : Int) (h : 1 ≤ n) :
    ∃ l, get_numbers_up_to (.int n) = .ok l ∧ l.length = n.toNat ∧
      ∀ i : Nat, i < n.toNat → l[i]? = some ((i : Int) + 1) := by
  have hn : (n.toNat : Int) = n := Int.toNat_of_nonneg (by omega)
  have h1 : 1 ≤ n.toNat := by omega
  refine ⟨(List.range n.toNat).map (fun i : Nat => ((1 : Int) + i)), ?_, by simp, ?_⟩
  · have h2 := get_numbers_up_to_int_pos n.toNat h1
    rwa [hn] at h2
  · intro i hi
    rw [List.getElem?_map, List.getElem?_range hi]
    simp [add_comm]

theorem C2_witness :
    (1 : Int) ≤ 5 ∧ ∃ l, get_numbers_up_to (.int 5) = .ok l ∧ l.length = (5 : Int).toNat ∧
      ∀ i : Nat, i < (5 : Int).toNat → l[i]? = some ((i : Int) + 1) :=
  ⟨by norm_num, C2_range_correct 5 (by norm_num)⟩

/-- C3: for every integer input, the Range Generator raises a value-range
error (`ValueError`) iff `n < 1`, and the Factorial Calculator raises a
value-range error iff `n < 0`; in particular inputs `0` and `-1` to the
Range Generator and `-1` to the Factorial Calculator raise it, and no
partial result accompanies a failure (the result is the error alone). -/
theorem C3_value_range_errors :
    (∀ n : Int, (∃ msg, get_numbers_up_to (.int n) = .error (.valueError msg)) ↔ n < 1) ∧
    (∀ n : Int, (∃ msg, factorial (.int n) = .error (.valueError msg)) ↔ n < 0) ∧
    get_numbers_up_to (.int 0) = .error (.valueError "Input must be a positive integer") ∧
    get_numbers_up_to (.int (-1)) = .error (.valueError "Input must be a positive integer") ∧
    factorial (.int (-1)) = .error (.valueError "Factorial is not defined for negative numbers") := by
  refine ⟨fun n => ⟨?_, fun hlt => ⟨_, get_numbers_up_to_int_err n hlt⟩⟩,
    fun n => ⟨?_, fun hlt => ⟨_, factorial_int_err n hlt⟩⟩, rfl, rfl, rfl⟩
  · rintro ⟨msg, hmsg⟩
    by_contra hn
    rw [get_numbers_up_to_int_ok n (by omega)] at hmsg
    exact Except.noConfusion hmsg
  · rintro ⟨msg, hmsg⟩
    by_contra hn
    rw [factorial_int_ok n (by omega)] at hmsg
    exact Except.noConfusion hmsg

/-- C4: every supplied value that is not an integer (floats such as 3.5,
strings such as "5") makes both functions raise a type-mismatch error
(`TypeError`), before any computation is performed. -/
theorem C4_type_errors :
    (∀ x : Rat, get_numbers_up_to (.float x) = .error (.typeError "Input must be an integer") ∧
        factorial (.float x) = .error (.typeError "Input must be an integer")) ∧
    (∀ s : String, get_numbers_up_to (.str s) = .error (.typeError "Input must be an integer") ∧
        factorial (.str s) = .error (.typeError "Input must be an integer")) ∧
    (∀ v : PyVal, isinstance_int v = false →
        get_numbers_up_to v = .error (.typeError "Input must be an integer") ∧
        factorial v = .error (.typeError "Input must be an integer")) := by
  have key : ∀ v : PyVal, isinstance_int v = false →
      get_numbers_up_to v = .error (.typeError "Input must be an integer") ∧
      factorial v = .error (.typeError "Input must be an integer") := by
    intro v hv
    constructor
    · unfold get_numbers_up_to
      rw [if_pos (by simp [hv])]
    · unfold factorial
      rw [if_pos (by simp [hv])]
  exact ⟨fun x => key (.float x) rfl, fun s => key (.str s) rfl, key⟩

theorem C4_witness :
    get_numbers_up_to (.float (7 / 2)) = .error (.typeError "Input must be an integer") ∧
    factorial (.str "5") = .error (.typeError "Input must be an integer") :=
  ⟨(C4_type_errors.1 (7 / 2)).1, (C4_type_errors.2.1 "5").2⟩

/-- C5: for every integer `n ≥ 2`, `factorial(n) = n * factorial(n-1)`,
and `factorial(0) = factorial(1) = 1`: the factorial recurrence holds
for all valid `n ≥ 0`. -/
theorem C5_recurrence (n : Int) (h : 2 ≤ n) :
    factorial (.int n) = Except.map (fun b => n * b) (factorial (.int (n - 1))) ∧
    factorial (.int 0) = .ok 1 ∧ factorial (.int 1) = .ok 1 := by
  refine ⟨?_, rfl, rfl⟩
  rw [factorial_int_ok n (by omega), factorial_int_ok (n - 1) (by omega)]
  have ht : n.toNat = (n - 1).toNat + 1 := by omega
  have ht2 : (((n - 1).toNat : Int)) = n - 1 := Int.toNat_of_nonneg (by omega)
  rw [ht, Nat.factorial_succ]
  simp only [Except.map]
  congr 1
  push_cast
  rw [ht2]
  ring

theorem C5_witness :
    factorial (.int 2) = Except.map (fun b => (2 : Int) * b) (factorial (.int 1)) ∧
    factorial (.int 0) = .ok 1 ∧ factorial (.int 1) = .ok 1 :=
  C5_recurrence 2 (by norm_num)

/-- C6: on inputs 0 and 1 the Factorial Calculator returns 1 without
calling the Range Generator (empty call trace); for `n ≥ 2` it calls the
Range Generator exactly once on `n` and folds the resulting `[1..n]`
with multiplication seeded at 1 in ascending order; every Range
Generator call made from a valid factorial call succeeds, so the
value-range error branch is unreachable; and the instrumented function
computes the same result as `factorial`. -/
theorem C6_range_calls (n : Int) (h : 0 ≤ n) :
    (n = 0 ∨ n = 1 → factorialTr (.int n) = (.ok 1, [])) ∧
    (2 ≤ n → factorialTr (.int n)
        = (.ok ((pyRange 1 (n + 1)).foldl (fun result num => result * num) 1), [.int n])) ∧
    (∀ v ∈ (factorialTr (.int n)).2, ∃ l, get_numbers_up_to v = .ok l) ∧
    (factorialTr (.int n)).1 = factorial (.int n) := by
  refine ⟨?_, factorialTr_int n, ?_, factorialTr_fst _⟩
  · rintro (rfl | rfl) <;> rfl
  · by_cases h2 : 2 ≤ n
    · rw [factorialTr_int n h2]
      intro v hv
      simp only [List.mem_singleton] at hv
      subst hv
      exact ⟨_, get_numbers_up_to_int_ok n (by omega)⟩
    · have h01 : n = 0 ∨ n = 1 := by omega
      intro v hv
      rcases h01 with rfl | rfl
      · rw [show (factorialTr (.int 0)).2 = [] from rfl] at hv
        exact absurd hv (List.not_mem_nil v)
      · rw [show (factorialTr (.int 1)).2 = [] from rfl] at hv
        exact absurd hv (List.not_mem_nil v)

theorem C6_witness :
    factorialTr (.int 1) = (.ok 1, []) ∧
    factorialTr (.int 5)
      = (.ok ((pyRange 1 (5 + 1)).foldl (fun result num => result * num) 1), [.int 5]) ∧
    (factorialTr (.int 5)).1 = factorial (.int 5) :=
  ⟨(C6_range_calls 1 (by norm_num)).1 (Or.inr rfl),
   (C6_range_calls 5 (by norm_num)).2.1 (by norm_num),
   (C6_range_calls 5 (by norm_num)).2.2.2⟩

/-- C7: factorial is monotonically non-decreasing: for every integer
`n ≥ 0` the value returned on `n + 1` is at least the value returned
on `n`. -/
theorem C7_monotone (n : Int) (h : 0 ≤ n) :
    ∃ a b, factorial (.int n) = .ok a ∧ factorial (.int (n + 1)) = .ok b ∧ a ≤ b := by
  refine ⟨_, _, factorial_int_ok n h, factorial_int_ok (n + 1) (by omega), ?_⟩
  have hle : n.toNat ≤ (n + 1).toNat := by omega
  exact_mod_cast Nat.factorial_le hle

theorem C7_witness :
    (0 : Int) ≤ 3 ∧ ∃ a b, factorial (.int 3) = .ok a ∧
      factorial (.int (3 + 1)) = .ok b ∧ a ≤ b :=
  ⟨by norm_num, C7_monotone 3 (by norm_num)⟩

/-- C8: for every valid input `n ≥ 0`, the value returned by `factorial`
is at least 1. -/
theorem C8_at_least_one (n : Int) (h : 0 ≤ n) :
    ∃ a, factorial (.int n) = .ok a ∧ 1 ≤ a := by
  refine ⟨_, factorial_int_ok n h, ?_⟩
  have hpos := Nat.factorial_pos n.toNat
  exact_mod_cast hpos

theorem C8_witness :
    (0 : Int) ≤ 4 ∧ ∃ a, factorial (.int 4) = .ok a ∧ 1 ≤ a :=
  ⟨by norm_num, C8_at_least_one 4 (by norm_num)⟩

/-- C9: boolean inputs pass the `isinstance(n, int)` check (bool is a
subclass of int in Python), so they are accepted rather than rejected
with a type-mismatch error: `factorial(True) = factorial(False) = 1`
and `get_numbers_up_to(True) = [1]`. -/
theorem C9_bools_accepted :
    isinstance_int (.bool true) = true ∧ isinstance_int (.bool false) = true ∧
    factorial (.bool true) = .ok 1 ∧ factorial (.bool false) = .ok 1 ∧
    get_numbers_up_to (.bool true) = .ok [1] :=
  ⟨rfl, rfl, rfl, rfl, rfl⟩

/-- C10: both functions are deterministic and touch no state outside
their own call frame: the state-threaded translations return the same
results from any two ambient states, leave the state unchanged, and
agree with the pure functions. -/
theorem C10_deterministic (σ : Type) (s t : σ) (v : PyVal) :
    (factorialSt s v).1 = (factorialSt t v).1 ∧ (factorialSt s v).2 = s ∧
    (rangeSt s v).1 = (rangeSt t v).1 ∧ (rangeSt s v).2 = s ∧
    (factorialSt s v).1 = factorial v ∧ (rangeSt s v).1 = get_numbers_up_to v := by
  simp [factorialSt_eq, rangeSt_eq]

theorem C10_witness :
    (factorialSt (0 : Nat) (.int 5)).1 = (factorialSt (1 : Nat) (.int 5)).1 ∧
    (factorialSt (0 : Nat) (.int 5)).2 = 0 :=
  ⟨(C10_deterministic Nat 0 1 (.int 5)).1, (C10_deterministic Nat 0 1 (.int 5)).2.1⟩

end PeanutButter
